import Mathlib

/-!
# Verification of the api-key-management library core

Shallow embedding of the credential lifecycle engine of the
api-key-management backend library: the key generation service
(`KeyGenerationService`), the key validation service
(`KeyValidationService`) and the orchestrator (`KeyManagerService`)
with its five lifecycle operations (create, validate, update, remove,
list).

Modelling conventions:
- Timestamps are natural numbers (milliseconds since the Unix epoch); a
  single `now : Time` parameter stands for every `new Date()` taken
  during one request.
- The credential store is an explicit `Store` value threaded through each
  operation; repository calls (`findOne`, `find`, `save`, `update`,
  query builder) become list operations on it.
- Randomness (token generation, fresh identifiers and secrets) is passed
  in as parameters, so every definition is a pure function of its inputs.
- JavaScript truthiness of optional / falsy values (`x || d`,
  `if (x) ...`) is modelled explicitly by the `jsOr*` / `jsTruthy`
  helpers, including the falsiness of `0` and of the empty string.
- Fallible operations return `Except` (a thrown `HttpException` becomes
  `Except.error` carrying the error code and HTTP status); the store is
  returned alongside so that state changes are visible on every path.
-/

namespace ApiKeyLib

/-- Milliseconds since the Unix epoch. -/
abbrev Time := Nat

/-- A `sa_info` row: a service account owned by a user, holding the
client credential pair (`id` acts as `client_id`). -/
structure SaInfo where
  id : String
  user_id : String
  client_secret : String
  description : Option String := none
  created_by : String := ""
  deleted_at : Option Time := none
  deriving Repr, DecidableEq

/-- An `api_key` row. -/
structure ApiKey where
  id : Nat
  client_id : String
  api_key : String
  name : String
  description : Option String := none
  is_active : Bool := true
  expiry_date : Option Time := none
  created_at : Time := 0
  updated_at : Time := 0
  created_by : String := ""
  updated_by : Option String := none
  deleted_at : Option Time := none
  deleted_by : Option String := none
  deriving Repr, DecidableEq

/-- The credential store: the two tables plus the id sequence for
`api_key.id` (`sa_info` ids are opaque strings supplied by the store and
are passed in as parameters where a row is created). -/
structure Store where
  saInfos : List SaInfo := []
  apiKeys : List ApiKey := []
  nextKeyId : Nat := 1
  deriving Repr, DecidableEq

/-- Modelled from the spec (sections 3 and 4.4): the derived status
classifier — `deleted` if `deleted_at` is set, else `inactive` if
`is_active` is false, else `expired` if `expiry_date` is non-null and
`≤ now`, else `active`.  This definition follows the spec's words; the
response-site computations below are translated from the source, and the
claims compare the two. -/
def specStatus (deletedAt : Option Time) (isActive : Bool) (expiryDate : Option Time)
    (now : Time) : String :=
  if deletedAt.isSome then "deleted"
  else if !isActive then "inactive"
  else
    match expiryDate with
    | some e => if e ≤ now then "expired" else "active"
    | none => "active"

/-- JavaScript truthiness of an optional string (`if (clientId) ...`):
`null`/`undefined` and the empty string are falsy. -/
def jsTruthy : Option String → Bool
  | none => false
  | some s => !(s == "")

/-- JavaScript `s || d` on an optional string: `null`/`undefined` and the
empty string fall back to the default. -/
def jsOrStr : Option String → String → String
  | none, d => d
  | some s, d => if s == "" then d else s

/-- JavaScript `n || d` on an optional number: `null`/`undefined` and `0`
fall back to the default. -/
def jsOrInt : Option Int → Int → Int
  | none, d => d
  | some v, d => if v == 0 then d else v

/-- Model of `String.prototype.trim`: strips leading and trailing
whitespace (structurally recursive, so it evaluates on concrete
strings). -/
def strTrim (s : String) : String :=
  ⟨((s.data.dropWhile Char.isWhitespace).reverse.dropWhile Char.isWhitespace).reverse⟩

/-! ## KeyValidationService -/

/-- Result of `KeyValidationService.validateExpiration`. -/
structure ExpirationValidationResult where
  isValid : Bool
  reason : String
  message : String
  deriving Repr, DecidableEq

/-- Model of `KeyValidationService.validateExpiration`: a missing expiry is valid
(`NO_EXPIRY`); otherwise `expiresAt <= now` is `KEY_EXPIRED`, else
`NOT_EXPIRED`. -/
def validateExpiration (expiresAt : Option Time) (now : Time) : ExpirationValidationResult :=
  match expiresAt with
  | none => ⟨true, "NO_EXPIRY", "Key has no expiration date"⟩
  | some e =>
    if e ≤ now then ⟨false, "KEY_EXPIRED", "API key expired"⟩
    else ⟨true, "NOT_EXPIRED", "Key is within expiration date"⟩

/-- The `keyInfo` payload of a successful validation. -/
structure KeyInfo where
  id : Nat
  userId : String
  expiresAt : Option Time
  status : String
  deriving Repr, DecidableEq

/-- Shape of `ValidationResult` as returned by `KeyValidationService.validateApiKey`.
On the `INVALID_FORMAT` path the source passes `startTime` where the
`statusCode` parameter is expected, so that result's `statusCode` is the
request timestamp; the model reproduces this. -/
structure ValidationResult where
  isValid : Bool
  reason : Option String := none
  message : String
  statusCode : Nat
  timestamp : Time
  keyInfo : Option KeyInfo := none
  deriving Repr, DecidableEq

/-- The repository query of `validateApiKey`: all rows with
`is_active = true`, additionally filtered by `client_id` when a truthy
`clientId` was given.  Soft-deleted rows are NOT excluded here. -/
def activeKeysQuery (st : Store) (clientId : Option String) : List ApiKey :=
  st.apiKeys.filter fun k =>
    k.is_active && (if jsTruthy clientId then k.client_id == clientId.getD "" else true)

/-- The linear scan of `validateApiKey`: first stored active key whose
`api_key` equals the presented key (raw string comparison). -/
def findKeyRecord (st : Store) (keyToValidate : String) (clientId : Option String) :
    Option ApiKey :=
  (activeKeysQuery st clientId).find? fun r => keyToValidate == r.api_key

/-- Model of `KeyValidationService.validateApiKey`, instrumented with the number of
repository reads performed (second component): the empty/whitespace guard
returns before the repository is touched, every other path performs the
single `find` read. -/
def validateApiKey (st : Store) (keyToValidate : String) (clientId : Option String)
    (now : Time) : ValidationResult × Nat :=
  if strTrim keyToValidate == "" then
    (⟨false, some "INVALID_FORMAT", "API key cannot be empty", now, now, none⟩, 0)
  else
    match findKeyRecord st keyToValidate clientId with
    | none =>
      (⟨false, some "KEY_NOT_FOUND", "Invalid API key or client credentials", 404, now, none⟩, 1)
    | some k =>
      if !k.is_active then
        (⟨false, some "KEY_INACTIVE", "API key is not active", 403, now, none⟩, 1)
      else
        let ev := validateExpiration k.expiry_date now
        if !ev.isValid then
          (⟨false, some ev.reason, ev.message, 401, now, none⟩, 1)
        else
          (⟨true, none, "API key validation successful", 200, now,
            some ⟨k.id, k.client_id, k.expiry_date,
              if k.is_active then "active" else "inactive"⟩⟩, 1)

/-! ## KeyGenerationService -/

/-- The service configuration (`KeyGenerationServiceConfig` defaults). -/
structure KeyGenConfig where
  saltRounds : Nat := 12
  maxRetries : Nat := 3
  keyPrefix : String := "ak_"
  defaultExpiryDays : Nat := 365
  deriving Repr, DecidableEq

/-- The configuration actually installed in `KeyGenerationService`. -/
def keyGenConfig : KeyGenConfig := {}

/-- Model of `KeyGenerationService.checkKeyExists`: `findOne` on the `api_key`
column — unscoped by deletion state. -/
def checkKeyExists (st : Store) (apiKey : String) : Bool :=
  (st.apiKeys.find? fun k => k.api_key == apiKey).isSome

/-- The `while (attempt < maxRetries)` loop of `generateUniqueKey`,
with the random tokens drawn on attempt `i` given by `tokens i`: starting
from `attempt` with `fuel` iterations of budget left, returns the index
of the first attempt whose token does not collide, or `none` when the
budget is exhausted. -/
def genAttempt (st : Store) (tokens : Nat → String) (attempt : Nat) : Nat → Option Nat
  | 0 => none
  | fuel + 1 =>
    if checkKeyExists st (tokens attempt) then genAttempt st tokens (attempt + 1) fuel
    else some attempt

/-- Failures of the generation service (plain thrown `Error`s, not
`HttpException`s). -/
inductive GenErr where
  | invalidInput : String → GenErr
  | maxRetriesExceeded : GenErr
  deriving Repr, DecidableEq

/-- Model of `KeyGenerationService.createKeyRecord`: builds and persists the
`ApiKey` entity.  `expiresAt || default` applies the 365-day default when
the caller passed `null`; `description || default` falls back on a
missing or empty description. -/
def createKeyRecord (st : Store) (apiKey userId name : String) (description : Option String)
    (isActive : Bool) (expiresAt : Option Time) (now : Time) : Store × ApiKey :=
  let entity : ApiKey :=
    { id := st.nextKeyId
      client_id := userId
      api_key := apiKey
      name := name
      description := some (jsOrStr description ("Generated API key for client " ++ userId))
      is_active := isActive
      expiry_date :=
        some (expiresAt.getD (now + keyGenConfig.defaultExpiryDays * 24 * 60 * 60 * 1000))
      created_at := now
      updated_at := now
      created_by := "key-generation-service"
      updated_by := none
      deleted_at := none
      deleted_by := none }
  ({ st with apiKeys := st.apiKeys ++ [entity], nextKeyId := st.nextKeyId + 1 }, entity)

/-- The `keyRecord` summary inside a `UniqueKeyResult`. -/
structure KeyRecordSummary where
  id : Nat
  userId : String
  createdAt : Time
  expiresAt : Option Time
  status : String
  deriving Repr, DecidableEq

/-- Shape of `UniqueKeyResult`: the raw key together with the persisted record's
summary. -/
structure UniqueKeyResult where
  rawKey : String
  keyRecord : KeyRecordSummary
  deriving Repr, DecidableEq

/-- Model of `KeyGenerationService.generateUniqueKey`: collision-checked retry
with budget `keyGenConfig.maxRetries`; on success persists the row via
`createKeyRecord`, on exhaustion raises a generation failure leaving the
store untouched. -/
def generateUniqueKey (st : Store) (tokens : Nat → String) (userId name : String)
    (description : Option String) (isActive : Bool) (expiresAt : Option Time) (now : Time) :
    Store × Except GenErr UniqueKeyResult :=
  match genAttempt st tokens 0 keyGenConfig.maxRetries with
  | none => (st, .error .maxRetriesExceeded)
  | some i =>
    let rawKey := tokens i
    let (st', keyRecord) := createKeyRecord st rawKey userId name description isActive expiresAt now
    (st', .ok ⟨rawKey, ⟨keyRecord.id, keyRecord.client_id, keyRecord.created_at,
      keyRecord.expiry_date, if keyRecord.is_active then "active" else "inactive"⟩⟩)

/-- Model of `KeyGenerationService.validateGenerationInput`: empty/blank client id
is rejected; a non-null expiry that is not strictly in the future is
rejected. -/
def validateGenerationInput (userId : String) (expiresAt : Option Time) (now : Time) :
    Option GenErr :=
  if strTrim userId == "" then
    some (.invalidInput "Client ID is required and must be a non-empty string")
  else
    match expiresAt with
    | some e =>
      if e ≤ now then some (.invalidInput "Expiry date must be in the future") else none
    | none => none

/-- Shape of `KeyGenerationResult` as returned by `generateApiKey`. -/
structure KeyGenerationResult where
  keyId : Nat
  rawKey : String
  userId : String
  createdAt : Time
  expiresAt : Option Time
  status : String
  deriving Repr, DecidableEq

/-- Model of `KeyGenerationService.generateApiKey`: input validation followed by
`generateUniqueKey`; errors propagate to the caller unchanged. -/
def generateApiKey (st : Store) (tokens : Nat → String) (userId name : String)
    (description : Option String) (isActive : Bool) (expiresAt : Option Time) (now : Time) :
    Store × Except GenErr KeyGenerationResult :=
  match validateGenerationInput userId expiresAt now with
  | some e => (st, .error e)
  | none =>
    match generateUniqueKey st tokens userId name description isActive expiresAt now with
    | (st', .error e) => (st', .error e)
    | (st', .ok r) =>
      (st', .ok ⟨r.keyRecord.id, r.rawKey, r.keyRecord.userId, r.keyRecord.createdAt,
        r.keyRecord.expiresAt, r.keyRecord.status⟩)

/-! ## KeyManagerService (orchestrator) -/

/-- The body of a thrown `HttpException`: error code and HTTP status. -/
structure ErrBody where
  code : String
  status : Nat
  deriving Repr, DecidableEq

/-- Shape of `CreateApiKeyDto`.  `expires_at` distinguishes: absent / `null` /
empty string (all falsy, `none`), present but unparseable
(`some none`), and a valid date (`some (some e)`).  `is_active`
defaults to `true` when `undefined` (destructuring default). -/
structure CreateKeyDto where
  user_id : String
  name : String
  expires_at : Option (Option Time) := none
  description : Option String := none
  is_active : Option Bool := none
  deriving Repr, DecidableEq

/-- The `data` payload of a successful `createApiKey` response. -/
structure CreateRespData where
  key_id : Nat
  raw_key : String
  user_id : String
  client_id : String
  client_secret : String
  name : String
  description : Option String
  is_active : Bool
  created_at : Time
  expires_at : Option Time
  status : String
  deriving Repr, DecidableEq

/-- JavaScript `description || null` in the create response: a missing or
empty description is rendered as `null`. -/
def jsOrNullStr : Option String → Option String
  | none => none
  | some s => if s == "" then none else some s

/-- Step 3 of `createApiKey`: delegate to the generation service under
the resolved service account; generation-layer `Error`s are caught by the
surrounding handler and surfaced as `KEY_CREATION_ERROR` (500). -/
def createApiKeyGenerate (st : Store) (dto : CreateKeyDto) (saInfo : SaInfo)
    (expiryDate : Option Time) (isActive : Bool) (now : Time) (tokens : Nat → String) :
    Store × Except ErrBody CreateRespData :=
  match generateApiKey st tokens saInfo.id dto.name dto.description isActive expiryDate now with
  | (st', .error _) => (st', .error ⟨"KEY_CREATION_ERROR", 500⟩)
  | (st', .ok result) =>
    (st', .ok ⟨result.keyId, result.rawKey, dto.user_id, saInfo.id, saInfo.client_secret,
      dto.name, jsOrNullStr dto.description, isActive, result.createdAt, result.expiresAt,
      result.status⟩)

/-- Steps 1 and 2 of `createApiKey`: look up a NON-DELETED `sa_info` row
for the owner (`where user_id, deleted_at IsNull`); when none is found a
fresh service account is created with the supplied store-generated id and
random secret.  The subsequent `if (saInfo.deleted_at)` guard of the
source (throwing `SERVICE_ACCOUNT_DELETED`) is embedded as written, but
it is unreachable: the lookup already filtered soft-deleted rows. -/
def createApiKeyResolveAccount (st : Store) (dto : CreateKeyDto) (expiryDate : Option Time)
    (isActive : Bool) (now : Time) (freshSaId freshSecret : String) (tokens : Nat → String) :
    Store × Except ErrBody CreateRespData :=
  match st.saInfos.find? (fun sa => sa.user_id == dto.user_id && sa.deleted_at.isNone) with
  | none =>
    let newSa : SaInfo :=
      { id := freshSaId, user_id := dto.user_id, client_secret := freshSecret,
        description := dto.description, created_by := "key-manager-service",
        deleted_at := none }
    let st1 := { st with saInfos := st.saInfos ++ [newSa] }
    createApiKeyGenerate st1 dto newSa expiryDate isActive now tokens
  | some saInfo =>
    if saInfo.deleted_at.isSome then (st, .error ⟨"SERVICE_ACCOUNT_DELETED", 400⟩)
    else createApiKeyGenerate st dto saInfo expiryDate isActive now tokens

/-- Model of `KeyManagerService.createApiKey`: expiry validation, then service
account resolution (steps 1–2), then key generation (step 3). -/
def createApiKey (st : Store) (dto : CreateKeyDto) (now : Time)
    (freshSaId freshSecret : String) (tokens : Nat → String) :
    Store × Except ErrBody CreateRespData :=
  let isActive := dto.is_active.getD true
  match dto.expires_at with
  | some none => (st, .error ⟨"INVALID_EXPIRY_DATE", 400⟩)
  | some (some e) =>
    if e ≤ now then (st, .error ⟨"EXPIRY_DATE_PAST", 400⟩)
    else createApiKeyResolveAccount st dto (some e) isActive now freshSaId freshSecret tokens
  | none => createApiKeyResolveAccount st dto none isActive now freshSaId freshSecret tokens

/-- The `data` payload of a successful `validateKey` response. -/
structure ValidateRespData where
  key_id : Option Nat
  user_id : String
  client_id : String
  expires_at : Option Time
  status : Option String
  deriving Repr, DecidableEq

/-- Model of `KeyManagerService.validateKey`: resolve the non-deleted service
account by `client_id` (`INVALID_CLIENT_ID` on absence), compare the
stored secret by exact equality (`INVALID_CLIENT_SECRET` on mismatch),
and only then delegate to `KeyValidationService.validateApiKey`. -/
def validateKey (st : Store) (client_id client_secret api_key : String) (now : Time) :
    Except ErrBody ValidateRespData :=
  match st.saInfos.find? (fun sa => sa.id == client_id && sa.deleted_at.isNone) with
  | none => .error ⟨"INVALID_CLIENT_ID", 401⟩
  | some saInfo =>
    if saInfo.client_secret != client_secret then .error ⟨"INVALID_CLIENT_SECRET", 401⟩
    else
      let validationResult := (validateApiKey st api_key (some client_id) now).1
      if !validationResult.isValid then
        .error ⟨validationResult.reason.getD "", validationResult.statusCode⟩
      else
        .ok ⟨validationResult.keyInfo.map (·.id), saInfo.user_id, saInfo.id,
          validationResult.keyInfo.bind (·.expiresAt), validationResult.keyInfo.map (·.status)⟩

/-- Shape of `UpdateApiKeyDto`: an outer `none` means the field was not provided
(`undefined`); for `expires_at`, `some none` is a provided but
unparseable date string. -/
structure UpdateKeyDto where
  name : Option String := none
  description : Option String := none
  expires_at : Option (Option Time) := none
  is_active : Option Bool := none
  deriving Repr, DecidableEq

/-- The `data` payload of a successful `updateApiKey` response. -/
structure UpdateRespData where
  key_id : Nat
  client_id : String
  name : String
  description : Option String
  is_active : Bool
  expires_at : Option Time
  status : String
  updated_at : Time
  deriving Repr, DecidableEq

/-- The status shown in the `updateApiKey` response (source:
`status: updatedKey!.is_active ? 'active' : 'inactive'`) — computed from
`is_active` alone. -/
def updateRespStatus (k : ApiKey) : String :=
  if k.is_active then "active" else "inactive"

/-- The row mutation of `updateApiKey` (`apiKeyRepo.update`): provided
fields overwrite, `updated_by` is set, the store bumps `updated_at`. -/
def applyUpdate (dto : UpdateKeyDto) (newExpiry : Option Time) (now : Time) (k : ApiKey) :
    ApiKey :=
  { k with
    name := dto.name.getD k.name
    description := match dto.description with | some d => some d | none => k.description
    expiry_date := match newExpiry with | some e => some e | none => k.expiry_date
    is_active := dto.is_active.getD k.is_active
    updated_by := some "key-manager-service"
    updated_at := now }

/-- Tail of `updateApiKey`: perform the update and re-fetch the row for
the response (`updatedKey!`; a failed re-fetch would surface as
`KEY_UPDATE_ERROR`). -/
def updateApply (st : Store) (id : Nat) (dto : UpdateKeyDto) (newExpiry : Option Time)
    (now : Time) : Store × Except ErrBody UpdateRespData :=
  let st' := { st with
    apiKeys := st.apiKeys.map
      (fun (k : ApiKey) => if k.id == id then applyUpdate dto newExpiry now k else k) }
  match st'.apiKeys.find? (fun k => k.id == id) with
  | none => (st', .error ⟨"KEY_UPDATE_ERROR", 500⟩)
  | some updatedKey =>
    (st', .ok ⟨updatedKey.id, updatedKey.client_id, updatedKey.name, updatedKey.description,
      updatedKey.is_active, updatedKey.expiry_date, updateRespStatus updatedKey,
      updatedKey.updated_at⟩)

/-- Model of `KeyManagerService.updateApiKey`.  The key id is modelled post-parse
as a `Nat` (the `MISSING_KEY_ID` guard concerns only an empty id string
and is outside this model).  Note there is no check of `deleted_at`:
soft-deleted keys can be updated. -/
def updateApiKey (st : Store) (id : Nat) (dto : UpdateKeyDto) (now : Time) :
    Store × Except ErrBody UpdateRespData :=
  if dto.name.isNone && dto.description.isNone && dto.expires_at.isNone &&
      dto.is_active.isNone then
    (st, .error ⟨"MISSING_UPDATE_FIELDS", 400⟩)
  else
    match st.apiKeys.find? (fun k => k.id == id) with
    | none => (st, .error ⟨"KEY_NOT_FOUND", 404⟩)
    | some _ =>
      match dto.expires_at with
      | some none => (st, .error ⟨"INVALID_EXPIRY_DATE", 400⟩)
      | some (some e) =>
        if e ≤ now then (st, .error ⟨"EXPIRY_DATE_PAST", 400⟩)
        else updateApply st id dto (some e) now
      | none => updateApply st id dto none now

/-- The `data` payload of a successful `removeKey` response. -/
structure RemoveRespData where
  key_id : Nat
  client_id : String
  status : String
  deleted_at : Option Time
  deleted_by : Option String
  deriving Repr, DecidableEq

/-- Model of `KeyManagerService.removeKey` (soft delete): `KEY_NOT_FOUND` when the
id matches no row, `KEY_ALREADY_DELETED` (thrown before any write) when
the row is already soft-deleted, otherwise sets `deleted_at`,
`deleted_by` and `updated_by`. -/
def removeKey (st : Store) (id : Nat) (deletedBy : String) (now : Time) :
    Store × Except ErrBody RemoveRespData :=
  match st.apiKeys.find? (fun k => k.id == id) with
  | none => (st, .error ⟨"KEY_NOT_FOUND", 404⟩)
  | some existingKey =>
    if existingKey.deleted_at.isSome then (st, .error ⟨"KEY_ALREADY_DELETED", 400⟩)
    else
      let st' := { st with
        apiKeys := st.apiKeys.map
          (fun (k : ApiKey) =>
            if k.id == id then
              { k with
                deleted_at := some now
                deleted_by := some deletedBy
                updated_by := some deletedBy }
            else k) }
      match st'.apiKeys.find? (fun k => k.id == id) with
      | none => (st', .error ⟨"KEY_REMOVAL_ERROR", 500⟩)
      | some deletedKey =>
        (st', .ok ⟨deletedKey.id, deletedKey.client_id, "deleted", deletedKey.deleted_at,
          deletedKey.deleted_by⟩)

/-! ### listKeys -/

/-- Shape of `ListKeysQueryDto`.  `page` and `limit` arrive as numbers (the
source normalises them through `parseInt(String(·))`, the identity on
integral inputs); `include_deleted` is a boolean flag. -/
structure ListKeysQueryDto where
  page : Option Int := none
  limit : Option Int := none
  sort_by : Option String := none
  sort_order : Option String := none
  include_deleted : Bool := false
  client_id : Option String := none
  status : Option String := none
  search : Option String := none
  deriving Repr, DecidableEq

/-- Effective page: `Math.max(1, parseInt(String(query.page || 1)))`. -/
def effectivePage (q : ListKeysQueryDto) : Int :=
  max 1 (jsOrInt q.page 1)

/-- Effective limit:
`Math.min(100, Math.max(1, parseInt(String(query.limit || 10))))`. -/
def effectiveLimit (q : ListKeysQueryDto) : Int :=
  min 100 (max 1 (jsOrInt q.limit 10))

/-- Case-insensitive substring test, modelling SQL `ILIKE '%pat%'`. -/
def containsCI (hay pat : String) : Bool :=
  if pat == "" then true
  else (hay.toLower.splitOn pat.toLower).length > 1

/-- The search filter: `name ILIKE %s% OR description ILIKE %s%` (a SQL
`NULL` description never matches). -/
def searchMatches (pat : String) (k : ApiKey) : Bool :=
  containsCI k.name pat ||
    (match k.description with | some d => containsCI d pat | none => false)

/-- The status filter predicates.  SQL comparisons against a `NULL`
`expiry_date` are unknown, so such rows match neither the
`expiry_date > now` nor the `expiry_date <= now` condition. -/
def statusFilterMatches (status : String) (now : Time) (k : ApiKey) : Bool :=
  if status == "active" then
    k.is_active && (match k.expiry_date with | some e => decide (now < e) | none => false)
  else if status == "inactive" || status == "revoked" then
    k.is_active == false
  else if status == "expired" then
    (match k.expiry_date with | some e => decide (e ≤ now) | none => false)
  else true

/-- The conjunction of the query-builder `andWhere` clauses of
`listKeys`. -/
def listFilter (q : ListKeysQueryDto) (now : Time) (k : ApiKey) : Bool :=
  (q.include_deleted || k.deleted_at.isNone) &&
  (if jsTruthy q.client_id then k.client_id == q.client_id.getD "" else true) &&
  (if jsTruthy q.status then statusFilterMatches (q.status.getD "") now k else true) &&
  (if jsTruthy q.search then searchMatches (q.search.getD "") k else true)

/-- Sort columns accepted by `listKeys`; others fall back to
`created_at`. -/
def allowedSortColumns : List String :=
  ["created_at", "updated_at", "expiry_date", "name", "is_active"]

/-- Comparison of two optional timestamps following the store's `ORDER BY`
on a nullable column (ascending, `NULL`s last — PostgreSQL default). -/
def cmpOptTime : Option Time → Option Time → Ordering
  | none, none => .eq
  | none, some _ => .gt
  | some _, none => .lt
  | some a, some b => compare a b

/-- Ascending comparison of two rows on a sort column. -/
def sortKeyCmp (col : String) (a b : ApiKey) : Ordering :=
  if col == "updated_at" then compare a.updated_at b.updated_at
  else if col == "expiry_date" then cmpOptTime a.expiry_date b.expiry_date
  else if col == "name" then compare a.name b.name
  else if col == "is_active" then compare a.is_active b.is_active
  else compare a.created_at b.created_at

/-- Models `ORDER BY col dir` as a boolean "may precede" relation; descending
order flips the ascending comparison (which also reproduces PostgreSQL's
default `NULLS FIRST` for descending sorts). -/
def listSortLe (col : String) (descending : Bool) (a b : ApiKey) : Bool :=
  if descending then sortKeyCmp col a b ≠ .lt else sortKeyCmp col a b ≠ .gt

/-- Insertion of a row into a sorted list (the tie order among equal sort
keys is left unspecified by the design; this model realises one
store-default order). -/
def insertSorted {α : Type} (le : α → α → Bool) (a : α) : List α → List α
  | [] => [a]
  | b :: bs => if le a b then a :: b :: bs else b :: insertSorted le a bs

/-- Sorting of the filtered rows. -/
def sortRows {α : Type} (le : α → α → Bool) : List α → List α
  | [] => []
  | a :: as => insertSorted le a (sortRows le as)

/-- One item of the `listKeys` response.  `client_secret` comes from the
left-joined service account; `api_key` is the stored raw key value. -/
structure ListRow where
  id : Nat
  client_id : String
  client_secret : Option String
  api_key : String
  name : String
  description : Option String
  created_at : Time
  expires_at : Option Time
  status : String
  deleted_at : Option Time
  deleted_by : Option String
  deriving Repr, DecidableEq

/-- The status computed inline per row in the `listKeys` response.
JavaScript `key.expiry_date <= new Date()` coerces a `null` expiry to
`0`, so a row with no expiry date is classified `expired` here. -/
def listRowStatus (k : ApiKey) (now : Time) : String :=
  if k.deleted_at.isSome then "deleted"
  else if !k.is_active then "inactive"
  else if k.expiry_date.getD 0 ≤ now then "expired"
  else "active"

/-- The projection of a stored key to a `listKeys` response row. -/
def listRowOfKey (st : Store) (now : Time) (k : ApiKey) : ListRow :=
  { id := k.id
    client_id := k.client_id
    client_secret := (st.saInfos.find? (fun sa => sa.id == k.client_id)).map (·.client_secret)
    api_key := k.api_key
    name := k.name
    description := k.description
    created_at := k.created_at
    expires_at := k.expiry_date
    status := listRowStatus k now
    deleted_at := k.deleted_at
    deleted_by := k.deleted_by }

/-- The `pagination` block of the `listKeys` response. -/
structure Pagination where
  page : Int
  limit : Int
  total : Nat
  total_pages : Nat
  has_next : Bool
  has_previous : Bool
  deriving Repr, DecidableEq

/-- The `data` payload of the `listKeys` response. -/
structure ListRespData where
  keys : List ListRow
  pagination : Pagination
  deriving Repr, DecidableEq

/-- Model of `KeyManagerService.listKeys`: filter, count, sort, paginate, project.
Soft-deleted rows are excluded unless `include_deleted`; the total is
counted after filtering and before pagination. -/
def listKeys (st : Store) (q : ListKeysQueryDto) (now : Time) : ListRespData :=
  let page := effectivePage q
  let limit := effectiveLimit q
  let skip := (page - 1) * limit
  let sortByColumn := jsOrStr q.sort_by "created_at"
  let descending := jsOrStr q.sort_order "DESC" == "DESC"
  let filtered := st.apiKeys.filter (listFilter q now)
  let total := filtered.length
  let validSortColumn := if allowedSortColumns.contains sortByColumn then sortByColumn
    else "created_at"
  let sorted := sortRows (listSortLe validSortColumn descending) filtered
  let pageKeys := (sorted.drop skip.toNat).take limit.toNat
  let totalPages := (total + limit.toNat - 1) / limit.toNat
  { keys := pageKeys.map (listRowOfKey st now)
    pagination :=
      { page := page
        limit := limit
        total := total
        total_pages := totalPages
        has_next := decide (page < (totalPages : Int))
        has_previous := decide (1 < page) } }

/-! ## Concrete instances used by the theorems below -/

/-- A service account soft-deleted at time 3, owned by user u1. -/
def c1Sa : SaInfo :=
  { id := "sa-old", user_id := "u1", client_secret := "s1", deleted_at := some 3 }

/-- A store whose only service account for u1 is soft-deleted. -/
def c1Store : Store := { saInfos := [c1Sa] }

/-- A key-creation request for u1. -/
def c1Dto : CreateKeyDto := { user_id := "u1", name := "k1" }

/-- The store produced by `createApiKey` on `c1Store` at time 100: the
soft-deleted account is untouched and a second, fresh account now exists
for the same owner, with a key under it. -/
def c1StoreAfter : Store :=
  { saInfos := [c1Sa,
      { id := "sa-new", user_id := "u1", client_secret := "s2",
        created_by := "key-manager-service" }]
    apiKeys := [{ id := 1, client_id := "sa-new", api_key := "tok", name := "k1",
                  description := some "Generated API key for client sa-new",
                  is_active := true, expiry_date := some 31536000100,
                  created_at := 100, updated_at := 100,
                  created_by := "key-generation-service" }]
    nextKeyId := 2 }

/-- The successful response payload of that request. -/
def c1Resp : CreateRespData :=
  { key_id := 1, raw_key := "tok", user_id := "u1", client_id := "sa-new",
    client_secret := "s2", name := "k1", description := none, is_active := true,
    created_at := 100, expires_at := some 31536000100, status := "active" }

/-- A soft-deleted key whose `is_active` flag is still set. -/
def c2Key : ApiKey :=
  { id := 1, client_id := "sa1", api_key := "K1", name := "n1", is_active := true,
    expiry_date := some 1000, deleted_at := some 5 }

/-- A store holding only `c2Key`. -/
def c2Store : Store := { apiKeys := [c2Key], nextKeyId := 2 }

/-- An update request renaming `c2Key`. -/
def c2Dto : UpdateKeyDto := { name := some "n2" }

/-- A live active key used by the C2 witness. -/
def c2WitKey : ApiKey :=
  { id := 7, client_id := "sa2", api_key := "K2", name := "w", is_active := true,
    expiry_date := some 50 }

/-- A store holding only `c2WitKey`. -/
def c2WitStore : Store := { apiKeys := [c2WitKey], nextKeyId := 8 }

/-- An update request deactivating `c2WitKey`. -/
def c2WitDto : UpdateKeyDto := { is_active := some false }

/-- A stored key with raw value RAWKEY. -/
def c3Key : ApiKey :=
  { id := 1, client_id := "sa1", api_key := "RAWKEY", name := "n", is_active := true,
    expiry_date := some 100 }

/-- The service account owning `c3Key`. -/
def c3Sa : SaInfo := { id := "sa1", user_id := "u", client_secret := "sec" }

/-- A store holding `c3Sa` and `c3Key`. -/
def c3Store : Store := { saInfos := [c3Sa], apiKeys := [c3Key], nextKeyId := 2 }

/-- The row `listKeys` produces for `c3Key` at time 10. -/
def c3Row : ListRow :=
  { id := 1, client_id := "sa1", client_secret := some "sec", api_key := "RAWKEY",
    name := "n", description := none, created_at := 0, expires_at := some 100,
    status := "active", deleted_at := none, deleted_by := none }

/-- A service account with a known secret. -/
def c4Sa : SaInfo := { id := "c1", user_id := "u4", client_secret := "correct" }

/-- A real stored key under `c4Sa`. -/
def c4Key : ApiKey := { id := 4, client_id := "c1", api_key := "REALKEY", name := "k4" }

/-- A store holding `c4Sa` and `c4Key`. -/
def c4Store : Store := { saInfos := [c4Sa], apiKeys := [c4Key], nextKeyId := 5 }

/-- A store already holding the tokens t0, t1 and t2 as key values. -/
def c5Store : Store :=
  { apiKeys := [
      { id := 1, client_id := "c", api_key := "t0", name := "a" },
      { id := 2, client_id := "c", api_key := "t1", name := "b" },
      { id := 3, client_id := "c", api_key := "t2", name := "c" }]
    nextKeyId := 4 }

/-- A token supply whose first three draws all collide with `c5Store`. -/
def c5Tokens : Nat → String :=
  fun i => if i == 0 then "t0" else if i == 1 then "t1" else "t2"

/-- A live service account for the C5 witness. -/
def c5Sa : SaInfo := { id := "sa5", user_id := "u5", client_secret := "s5" }

/-- A key-creation request for the C5 witness. -/
def c5Dto : CreateKeyDto := { user_id := "u5", name := "k5" }

/-- A key-creation request without an expiry date. -/
def c6Dto : CreateKeyDto := { user_id := "u6", name := "k6" }

/-- The store produced by `createApiKey` on the empty store for `c6Dto`
at time 0. -/
def c6StoreAfter : Store :=
  { saInfos := [{ id := "sa6", user_id := "u6", client_secret := "s6",
                  created_by := "key-manager-service" }]
    apiKeys := [{ id := 1, client_id := "sa6", api_key := "tok6", name := "k6",
                  description := some "Generated API key for client sa6",
                  expiry_date := some 31536000000, created_at := 0, updated_at := 0,
                  created_by := "key-generation-service" }]
    nextKeyId := 2 }

/-- The successful response payload of that request. -/
def c6Resp : CreateRespData :=
  { key_id := 1, raw_key := "tok6", user_id := "u6", client_id := "sa6",
    client_secret := "s6", name := "k6", description := none, is_active := true,
    created_at := 0, expires_at := some 31536000000, status := "active" }

/-- A stored key with an already-set `deleted_at`, for the C8 witness. -/
def c8Key : ApiKey :=
  { id := 9, client_id := "sa8", api_key := "K8", name := "n8", is_active := false,
    deleted_at := some 42, deleted_by := some "ops" }

/-- A store holding only `c8Key`. -/
def c8Store : Store := { apiKeys := [c8Key], nextKeyId := 10 }

/-- A list query with out-of-range pagination values. -/
def c9Query : ListKeysQueryDto := { page := some (-5), limit := some 500 }

/-- The response of updating `c2WitKey` with `c2WitDto` at time 20. -/
def c2WitResp : UpdateRespData :=
  { key_id := 7, client_id := "sa2", name := "w", description := none,
    is_active := false, expires_at := some 50, status := "inactive", updated_at := 20 }

/-- The `keyInfo` returned when validating `c2WitKey` at time 10. -/
def c2WitKeyInfo : KeyInfo :=
  { id := 7, userId := "sa2", expiresAt := some 50, status := "active" }

/-! ## Helper lemmas -/

/-- Membership is preserved by sorted insertion. -/
theorem mem_insertSorted {α : Type} (le : α → α → Bool) (a x : α) (l : List α) :
    x ∈ insertSorted le a l ↔ x = a ∨ x ∈ l := by
  induction l with
  | nil => simp [insertSorted]
  | cons b bs ih =>
    simp only [insertSorted]
    split
    · simp [List.mem_cons]
    · simp only [List.mem_cons, ih]
      tauto

/-- Sorting does not change the rows present. -/
theorem mem_sortRows {α : Type} (le : α → α → Bool) (x : α) (l : List α) :
    x ∈ sortRows le l ↔ x ∈ l := by
  induction l with
  | nil => simp [sortRows]
  | cons a as ih => simp [sortRows, mem_insertSorted, ih, List.mem_cons]

/-- The retry loop inspects only the tokens of the attempts inside its
budget window. -/
theorem genAttempt_congr (st : Store) (tokens tokens2 : Nat → String) (attempt fuel : Nat)
    (h : ∀ i, attempt ≤ i → i < attempt + fuel → tokens i = tokens2 i) :
    genAttempt st tokens attempt fuel = genAttempt st tokens2 attempt fuel := by
  induction fuel generalizing attempt with
  | zero => rfl
  | succ n ih =>
    have h0 : tokens attempt = tokens2 attempt := h attempt le_rfl (by omega)
    simp only [genAttempt, h0]
    split
    · exact ih (attempt + 1) (fun i h1 h2 => h i (by omega) (by omega))
    · rfl

/-- A successful retry-loop exit happens at an attempt index inside the
budget window. -/
theorem genAttempt_some_bounds (st : Store) (tokens : Nat → String) (attempt fuel i : Nat)
    (h : genAttempt st tokens attempt fuel = some i) :
    attempt ≤ i ∧ i < attempt + fuel := by
  induction fuel generalizing attempt with
  | zero => simp [genAttempt] at h
  | succ n ih =>
    simp only [genAttempt] at h
    split at h
    · have := ih (attempt + 1) h
      omega
    · cases h
      omega

/-- When every token inside the budget window collides, the retry loop
exhausts its budget. -/
theorem genAttempt_none_of_all_collide (st : Store) (tokens : Nat → String)
    (attempt fuel : Nat)
    (h : ∀ i, attempt ≤ i → i < attempt + fuel → checkKeyExists st (tokens i) = true) :
    genAttempt st tokens attempt fuel = none := by
  induction fuel generalizing attempt with
  | zero => rfl
  | succ n ih =>
    have h0 := h attempt le_rfl (by omega)
    simp only [genAttempt, h0, if_true]
    exact ih (attempt + 1) (fun i h1 h2 => h i (by omega) (by omega))

/-! ## Claims -/

/-- Claim C7 (confirmed): the expiry comparison of the validation service
is non-strict — a key whose `expiry_date` equals the current time is
classified `KEY_EXPIRED` and invalid, and in general a non-null expiry
fails validation exactly when it is `≤ now`. -/
theorem expiry_boundary_nonstrict (e now : Time) :
    ((validateExpiration (some e) now).isValid = false ↔ e ≤ now) ∧
    (validateExpiration (some now) now).isValid = false ∧
    (validateExpiration (some now) now).reason = "KEY_EXPIRED" := by
  refine ⟨?_, ?_, ?_⟩
  · by_cases h : e ≤ now <;> simp [validateExpiration, h]
  · simp [validateExpiration]
  · simp [validateExpiration]

/-- Claim C10 (confirmed): a blank (empty or whitespace-only) key is
rejected by `validateApiKey` with reason `INVALID_FORMAT` and zero
repository reads — the guard fires before any store access. -/
theorem blank_key_rejected_without_store_read (st : Store) (key : String)
    (cid : Option String) (now : Time) (h : strTrim key = "") :
    validateApiKey st key cid now =
      (⟨false, some "INVALID_FORMAT", "API key cannot be empty", now, now, none⟩, 0) := by
  simp [validateApiKey, h]

/-- Witness for C10: a whitespace-only key against a populated store. -/
theorem blank_key_rejected_without_store_read_witness :
    validateApiKey c4Store "   " none 7 =
      (⟨false, some "INVALID_FORMAT", "API key cannot be empty", 7, 7, none⟩, 0) :=
  blank_key_rejected_without_store_read c4Store "   " none 7 (by decide)

/-- Claim C8 (confirmed): removing a key that is already soft-deleted
fails with `KEY_ALREADY_DELETED` (HTTP 400) and leaves the store — in
particular the row's `deleted_at` — completely unchanged: the error is
raised before any write. -/
theorem remove_already_deleted_terminal (st : Store) (i : Nat) (deletedBy : String)
    (now d : Time) (k : ApiKey)
    (hfind : st.apiKeys.find? (fun x => x.id == i) = some k)
    (hdel : k.deleted_at = some d) :
    removeKey st i deletedBy now = (st, .error ⟨"KEY_ALREADY_DELETED", 400⟩) := by
  unfold removeKey
  rw [hfind]
  simp [hdel]

/-- Witness for C8: removing the already-deleted key of `c8Store`. -/
theorem remove_already_deleted_terminal_witness :
    removeKey c8Store 9 "key-manager-service" 77 =
      (c8Store, .error ⟨"KEY_ALREADY_DELETED", 400⟩) :=
  remove_already_deleted_terminal c8Store 9 "key-manager-service" 77 42 c8Key
    (by decide) (by decide)

/-- Claim C9 (confirmed): `listKeys` never errors on out-of-range
pagination — the effective limit always lies in `[1, 100]`, a requested
page below 1 becomes 1 (a missing page likewise), `limit=500` clamps to
100, `page=0` clamps to 1, and the response echoes the clamped values. -/
theorem list_pagination_clamped (st : Store) (q : ListKeysQueryDto) (now : Time) :
    (1 ≤ effectiveLimit q ∧ effectiveLimit q ≤ 100) ∧
    (∀ p : Int, q.page = some p → p < 1 → effectivePage q = 1) ∧
    (q.page = none → effectivePage q = 1) ∧
    effectiveLimit { q with limit := some 500 } = 100 ∧
    effectivePage { q with page := some 0 } = 1 ∧
    (listKeys st q now).pagination.page = effectivePage q ∧
    (listKeys st q now).pagination.limit = effectiveLimit q := by
  refine ⟨⟨?_, ?_⟩, ?_, ?_, ?_, ?_, rfl, rfl⟩
  · exact le_min (by norm_num) (le_max_left 1 _)
  · exact min_le_left _ _
  · intro p hp hlt
    simp only [effectivePage, hp, jsOrInt]
    by_cases h0 : p = 0
    · simp [h0]
    · have : (p == 0) = false := by simpa using h0
      rw [this]
      simp only [Bool.false_eq_true, if_false]
      omega
  · intro hp
    simp [effectivePage, hp, jsOrInt]
  · simp [effectiveLimit, jsOrInt]
  · simp [effectivePage, jsOrInt]

/-- Witness for C9: the out-of-range query `c9Query` is clamped. -/
theorem list_pagination_clamped_witness :
    effectiveLimit c9Query = 100 ∧ effectivePage c9Query = 1 := by
  have h := list_pagination_clamped c4Store c9Query 0
  exact ⟨h.2.2.2.1, h.2.1 (-5) rfl (by decide)⟩

/-- Claim C4 (confirmed): when the service account matching the presented
`client_id` is found (non-deleted) but its stored secret differs from the
presented one, `validateKey` fails with `INVALID_CLIENT_SECRET` (HTTP
401), and the outcome is identical for every presented `api_key` —
whether or not the key matches a stored key, nothing about key existence
is revealed. -/
theorem wrong_secret_rejected_uniformly (st : Store) (cid s k1 : String) (now : Time)
    (sa : SaInfo)
    (hfind : st.saInfos.find? (fun a => a.id == cid && a.deleted_at.isNone) = some sa)
    (hsec : sa.client_secret ≠ s) :
    validateKey st cid s k1 now = .error ⟨"INVALID_CLIENT_SECRET", 401⟩ ∧
    ∀ k2 : String, validateKey st cid s k2 now = validateKey st cid s k1 now := by
  have main : ∀ key : String,
      validateKey st cid s key now = .error ⟨"INVALID_CLIENT_SECRET", 401⟩ := by
    intro key
    unfold validateKey
    rw [hfind]
    simp [bne_iff_ne, hsec]
  exact ⟨main k1, fun k2 => (main k2).trans (main k1).symm⟩

/-- Witness for C4: presenting the real stored key REALKEY with a wrong
secret still yields `INVALID_CLIENT_SECRET`. -/
theorem wrong_secret_rejected_uniformly_witness :
    validateKey c4Store "c1" "wrong" "REALKEY" 5 = .error ⟨"INVALID_CLIENT_SECRET", 401⟩ :=
  (wrong_secret_rejected_uniformly c4Store "c1" "wrong" "REALKEY" 5 c4Sa
    (by decide) (by decide)).1

/-- Claim C5 (confirmed): the retry budget is `maxRetries = 3`; the
outcome of `generateUniqueKey` depends only on the first three drawn
tokens (no fourth attempt is ever made); and when all three collide with
stored key values the generator raises a generation failure leaving the
store unchanged (no key row persisted), which the orchestrator surfaces
as the fatal `KEY_CREATION_ERROR` (HTTP 500) rather than retrying. -/
theorem generation_retry_budget (st : Store) (tokens tokens2 : Nat → String)
    (userId nm : String) (description : Option String) (isActive : Bool)
    (expiresAt : Option Time) (now : Time) (dto : CreateKeyDto) (sa : SaInfo) :
    keyGenConfig.maxRetries = 3 ∧
    ((∀ i, i < 3 → tokens i = tokens2 i) →
      generateUniqueKey st tokens userId nm description isActive expiresAt now =
        generateUniqueKey st tokens2 userId nm description isActive expiresAt now) ∧
    ((∀ i, i < 3 → checkKeyExists st (tokens i) = true) →
      generateUniqueKey st tokens userId nm description isActive expiresAt now =
        (st, .error .maxRetriesExceeded) ∧
      createApiKeyGenerate st dto sa expiresAt isActive now tokens =
        (st, .error ⟨"KEY_CREATION_ERROR", 500⟩)) := by
  have hmax : keyGenConfig.maxRetries = 3 := rfl
  refine ⟨rfl, ?_, ?_⟩
  · intro hc
    have hg : genAttempt st tokens 0 keyGenConfig.maxRetries
        = genAttempt st tokens2 0 keyGenConfig.maxRetries :=
      genAttempt_congr st tokens tokens2 0 _ (fun i _ h2 => hc i (by omega))
    unfold generateUniqueKey
    rw [hg]
    cases hgen : genAttempt st tokens2 0 keyGenConfig.maxRetries with
    | none => rfl
    | some i =>
      have hb := genAttempt_some_bounds st tokens2 0 _ i hgen
      have ht : tokens i = tokens2 i := hc i (by omega)
      dsimp only
      rw [ht]
  · intro hcol
    have hnone : genAttempt st tokens 0 keyGenConfig.maxRetries = none :=
      genAttempt_none_of_all_collide st tokens 0 _ (fun i _ h2 => hcol i (by omega))
    have hgen : generateUniqueKey st tokens sa.id dto.name dto.description isActive
        expiresAt now = (st, .error .maxRetriesExceeded) := by
      unfold generateUniqueKey
      rw [hnone]
    constructor
    · unfold generateUniqueKey
      rw [hnone]
    · unfold createApiKeyGenerate generateApiKey
      cases hv : validateGenerationInput sa.id expiresAt now with
      | some e => rfl
      | none => rw [hgen]

/-- Witness for C5: a token supply whose first three draws all collide
with `c5Store` makes generation fail fatally with the store unchanged. -/
theorem generation_retry_budget_witness :
    generateUniqueKey c5Store c5Tokens "sa5" "k5" none true none 9 =
      (c5Store, .error .maxRetriesExceeded) ∧
    createApiKeyGenerate c5Store c5Dto c5Sa none true 9 c5Tokens =
      (c5Store, .error ⟨"KEY_CREATION_ERROR", 500⟩) :=
  (generation_retry_budget c5Store c5Tokens c5Tokens "sa5" "k5" none true none 9
    c5Dto c5Sa).2.2 (by decide)

/-- When generation succeeds with a `null` expiry, the persisted row and
the returned payload carry the generator's 365-day default. -/
theorem createApiKeyGenerate_ok_none_expiry (st : Store) (dto : CreateKeyDto) (sa : SaInfo)
    (isActive : Bool) (now : Time) (tokens : Nat → String) (st2 : Store)
    (r : CreateRespData)
    (hok : createApiKeyGenerate st dto sa none isActive now tokens = (st2, .ok r)) :
    r.expires_at = some (now + 365 * 24 * 60 * 60 * 1000) ∧
    ∃ k, k ∈ st2.apiKeys ∧ k.id = r.key_id ∧
      k.expiry_date = some (now + 365 * 24 * 60 * 60 * 1000) := by
  unfold createApiKeyGenerate generateApiKey at hok
  cases hv : validateGenerationInput sa.id none now with
  | some e => rw [hv] at hok; simp at hok
  | none =>
    rw [hv] at hok
    unfold generateUniqueKey at hok
    cases hga : genAttempt st tokens 0 keyGenConfig.maxRetries with
    | none => rw [hga] at hok; simp at hok
    | some i =>
      rw [hga] at hok
      simp only [createKeyRecord] at hok
      simp only [Prod.mk.injEq, Except.ok.injEq] at hok
      obtain ⟨hst, hr⟩ := hok
      subst hst
      subst hr
      refine ⟨rfl, ?_⟩
      refine ⟨_, List.mem_append_right _ (List.mem_singleton_self _), rfl, rfl⟩

/-- Claim C6 (confirmed): a creation request that passes validation and
carries no expiry (`expires_at` omitted or `null`) persists a key whose
`expiry_date` is `now + 365` days, and the response echoes it — the
default is applied by the generator at persistence time. -/
theorem default_expiry_on_omitted (st : Store) (dto : CreateKeyDto) (now : Time)
    (freshSaId freshSecret : String) (tokens : Nat → String) (st2 : Store)
    (r : CreateRespData) (hexp : dto.expires_at = none)
    (hok : createApiKey st dto now freshSaId freshSecret tokens = (st2, .ok r)) :
    r.expires_at = some (now + 365 * 24 * 60 * 60 * 1000) ∧
    ∃ k, k ∈ st2.apiKeys ∧ k.id = r.key_id ∧
      k.expiry_date = some (now + 365 * 24 * 60 * 60 * 1000) := by
  unfold createApiKey at hok
  rw [hexp] at hok
  unfold createApiKeyResolveAccount at hok
  cases hf : st.saInfos.find? (fun sa => sa.user_id == dto.user_id && sa.deleted_at.isNone)
    with
  | none =>
    rw [hf] at hok
    exact createApiKeyGenerate_ok_none_expiry _ _ _ _ _ _ _ _ hok
  | some sa =>
    rw [hf] at hok
    dsimp only at hok
    cases hd : sa.deleted_at.isSome with
    | true => rw [hd] at hok; simp at hok
    | false =>
      rw [hd] at hok
      simp only [Bool.false_eq_true, if_false] at hok
      exact createApiKeyGenerate_ok_none_expiry _ _ _ _ _ _ _ _ hok

/-- Witness for C6: creating a key with no expiry at time 0 persists and
returns the 365-day default expiry. -/
theorem default_expiry_on_omitted_witness :
    c6Resp.expires_at = some (0 + 365 * 24 * 60 * 60 * 1000) ∧
    ∃ k, k ∈ c6StoreAfter.apiKeys ∧ k.id = c6Resp.key_id ∧
      k.expiry_date = some (0 + 365 * 24 * 60 * 60 * 1000) :=
  default_expiry_on_omitted {} c6Dto 0 "sa6" "s6" (fun _ => "tok6") c6StoreAfter c6Resp
    rfl rfl

/-- Claim C1 (code_bug): for an owner whose only service account is
soft-deleted, `createApiKey` does NOT fail with
`SERVICE_ACCOUNT_DELETED`; because the account lookup filters on
`deleted_at IS NULL`, the deleted row is invisible, the guard that would
raise `SERVICE_ACCOUNT_DELETED` is unreachable, and the orchestrator
silently provisions a brand-new service account for the deleted owner and
issues a key under it: on `c1Store` the request succeeds and the store
ends up with two accounts for user u1. -/
theorem deleted_owner_gets_new_account :
    createApiKey c1Store c1Dto 100 "sa-new" "s2" (fun _ => "tok") =
      (c1StoreAfter, .ok c1Resp) ∧
    c1StoreAfter.saInfos.length = 2 := by
  constructor
  · rfl
  · rfl

/-- The status in a successful update response is exactly
`updateRespStatus` of the stored row fetched after the update. -/
theorem updateApply_status_eq (st : Store) (i : Nat) (dto : UpdateKeyDto)
    (ne2 : Option Time) (tnow : Time) (r : UpdateRespData)
    (h : (updateApply st i dto ne2 tnow).2 = .ok r) :
    some r.status =
      ((updateApply st i dto ne2 tnow).1.apiKeys.find? (fun x => x.id == i)).map
        updateRespStatus := by
  unfold updateApply at h ⊢
  dsimp only at h ⊢
  cases hf : (st.apiKeys.map
      (fun x => if x.id == i then applyUpdate dto ne2 tnow x else x)).find?
      (fun x => x.id == i) with
  | none =>
    rw [hf] at h
    simp at h
  | some u =>
    rw [hf] at h ⊢
    dsimp only at h ⊢
    simp only [Except.ok.injEq] at h
    subst h
    rfl

/-- Counterexample to C2: updating (renaming) the soft-deleted key
`c2Key` succeeds and its response reports status active, while the
precedence classifier applied to the same stored row at response time
says deleted — the update response does not use the classifier. -/
theorem update_status_ignores_deletion_counterexample :
    (updateApiKey c2Store 1 c2Dto 10).2.map (fun r => r.status) = .ok "active" ∧
    ((updateApiKey c2Store 1 c2Dto 10).1.apiKeys.find? (fun k => k.id == 1)).map
        (fun k => specStatus k.deleted_at k.is_active k.expiry_date 10) =
      some "deleted" := by
  constructor
  · rfl
  · rfl

/-- Claim C2 (corrected): only the list response implements the
precedence classifier, and only for rows with a non-null `expiry_date`;
the update response's status is computed from `is_active` alone (the
stored row's `deleted_at` and `expiry_date` are ignored), and the
validation response's `keyInfo.status` can only ever read active. -/
theorem status_sites_amended (k : ApiKey) (now : Time) (st : Store) (i : Nat)
    (dto : UpdateKeyDto) (tnow : Time) (r : UpdateRespData) (st3 : Store)
    (key : String) (cid : Option String) (vnow : Time) (ki : KeyInfo) :
    (k.expiry_date.isSome = true →
      listRowStatus k now = specStatus k.deleted_at k.is_active k.expiry_date now) ∧
    ((updateApiKey st i dto tnow).2 = .ok r →
      some r.status =
        ((updateApiKey st i dto tnow).1.apiKeys.find? (fun x => x.id == i)).map
          updateRespStatus) ∧
    ((validateApiKey st3 key cid vnow).1.keyInfo = some ki → ki.status = "active") := by
  refine ⟨?_, ?_, ?_⟩
  · intro h
    obtain ⟨e, he⟩ := Option.isSome_iff_exists.mp h
    cases hd : k.deleted_at.isSome <;> cases ha : k.is_active <;>
      by_cases hle : e ≤ now <;>
        simp [listRowStatus, specStatus, he, hd, ha, hle]
  · intro h
    unfold updateApiKey at h ⊢
    by_cases hmf : (dto.name.isNone && dto.description.isNone && dto.expires_at.isNone &&
        dto.is_active.isNone) = true
    · rw [if_pos hmf] at h; simp at h
    · rw [if_neg hmf] at h ⊢
      cases hf : st.apiKeys.find? (fun x => x.id == i) with
      | none => rw [hf] at h; simp at h
      | some k0 =>
        rw [hf] at h
        dsimp only at h ⊢
        cases he2 : dto.expires_at with
        | none =>
          rw [he2] at h
          exact updateApply_status_eq st i dto none tnow r h
        | some oe =>
          rw [he2] at h
          cases oe with
          | none => simp at h
          | some e =>
            dsimp only at h ⊢
            by_cases hle : e ≤ tnow
            · rw [if_pos hle] at h; simp at h
            · rw [if_neg hle] at h ⊢
              exact updateApply_status_eq st i dto (some e) tnow r h
  · intro h
    unfold validateApiKey at h
    split at h
    · simp at h
    · cases hfk : findKeyRecord st3 key cid with
      | none => rw [hfk] at h; simp at h
      | some kr =>
        rw [hfk] at h
        dsimp only at h
        cases ha : kr.is_active with
        | false => rw [ha] at h; simp at h
        | true =>
          rw [ha] at h
          simp only [Bool.not_true, Bool.false_eq_true, if_false] at h
          split at h
          · simp at h
          · simp only [Option.some.injEq] at h
            subst h
            simp

/-- Witness for C2 (amended): on the live key `c2WitKey`, the list status
agrees with the classifier, the update response status is the
`is_active`-only projection of the stored row, and the validation
response status reads active. -/
theorem status_sites_amended_witness :
    listRowStatus c2WitKey 10 =
      specStatus c2WitKey.deleted_at c2WitKey.is_active c2WitKey.expiry_date 10 ∧
    some c2WitResp.status =
      ((updateApiKey c2WitStore 7 c2WitDto 20).1.apiKeys.find? (fun x => x.id == 7)).map
        updateRespStatus ∧
    c2WitKeyInfo.status = "active" := by
  have h := status_sites_amended c2WitKey 10 c2WitStore 7 c2WitDto 20 c2WitResp
    c2WitStore "K2" none 10 c2WitKeyInfo
  exact ⟨h.1 (by decide), h.2.1 (by rfl), h.2.2 (by rfl)⟩

/-- Counterexample to C3: the `listKeys` response of `c3Store` contains
the stored raw `api_key` value RAWKEY verbatim — the raw token is not
confined to the create response. -/
theorem list_returns_raw_key_counterexample :
    (listKeys c3Store {} 10).keys.map (fun row => row.api_key) = [c3Key.api_key] ∧
    c3Key ∈ c3Store.apiKeys := by
  constructor
  · rfl
  · simp [c3Store]

/-- Claim C3 (corrected): the raw key is returned in the create response,
but not only there — every row of every `listKeys` response carries the
stored raw `api_key` value of the listed key (along with the owning
account's `client_secret`). -/
theorem list_rows_carry_stored_raw_key (st : Store) (q : ListKeysQueryDto) (now : Time)
    (row : ListRow) (hrow : row ∈ (listKeys st q now).keys) :
    ∃ k, k ∈ st.apiKeys ∧ row.api_key = k.api_key ∧ row.id = k.id := by
  unfold listKeys at hrow
  dsimp only at hrow
  rw [List.mem_map] at hrow
  obtain ⟨k, hk, hrow⟩ := hrow
  subst hrow
  have h1 := List.mem_of_mem_take hk
  have h2 := List.mem_of_mem_drop h1
  have h3 := (mem_sortRows _ _ _).mp h2
  have h4 := List.mem_of_mem_filter h3
  exact ⟨k, h4, rfl, rfl⟩

/-- Witness for C3 (amended): the single row listed from `c3Store` is
backed by a stored key with the same raw value. -/
theorem list_rows_carry_stored_raw_key_witness :
    ∃ k, k ∈ c3Store.apiKeys ∧ c3Row.api_key = k.api_key ∧ c3Row.id = k.id :=
  list_rows_carry_stored_raw_key c3Store {} 10 c3Row (by decide)

end ApiKeyLib
